import Mathlib

/-!
Shallow embedding of the Snake game simulation from `src/main.js`
(red-pepe-snake-game). Pure game logic only: the DOM, canvas rendering
and localStorage persistence are external collaborators; the fields they
would read are modelled as plain data. JavaScript numbers holding grid
coordinates and direction deltas are modelled as `Int` (JS `%` on
integers is truncation remainder, `Int.tmod`); scores and counters are
non-negative and modelled as `Nat`. `Math.random()` draws are modelled
by an explicit stream `rand : Nat → Cell` of candidate cells (the i-th
rejection-sampling attempt inspects `rand i`).
-/

namespace Snake

/-- A grid cell or a direction vector: the JS `{x, y}` object literal. -/
structure Cell where
  x : Int
  y : Int
deriving DecidableEq, Repr

/-- `const GRID_COLS = 20`. -/
def GRID_COLS : Int := 20

/-- `const GRID_ROWS = 16`. -/
def GRID_ROWS : Int := 16

/-- `gameState`: "idle" | "playing" | "paused" | "over". -/
inductive GState where
  | idle
  | playing
  | paused
  | over
deriving DecidableEq, Repr

/-- `uiScreen`: "menu" | "instructions" | "none". -/
inductive UScreen where
  | menu
  | instructions
  | none
deriving DecidableEq, Repr

/-- The persisted stats record `{ bestScore, attemptsByDay }`.
`attemptsByDay` is a JS object mapping date-key strings to counts,
modelled as an association list (first occurrence wins on lookup). -/
structure Stats where
  bestScore : Nat
  attemptsByDay : List (String × Nat)
deriving DecidableEq, Repr

/-- Reading `attemptsByDay[k]`: `none` when the key is absent. -/
def lookupDay (m : List (String × Nat)) (k : String) : Option Nat :=
  match m with
  | [] => Option.none
  | (k', v) :: rest => if k' = k then Option.some v else lookupDay rest k

/-- Writing `attemptsByDay[k] = v` on a JS object: replace the binding if
present, otherwise add it. -/
def setDay (m : List (String × Nat)) (k : String) (v : Nat) : List (String × Nat) :=
  match m with
  | [] => [(k, v)]
  | (k', v') :: rest => if k' = k then (k, v) :: rest else (k', v') :: setDay rest k v

/-- The mutable module-level game state of `main.js` (DOM handles and the
frame-timing accumulator excluded). -/
structure Game where
  score : Nat
  gameOver : Bool
  gameState : GState
  uiScreen : UScreen
  menuIndex : Nat
  snake : List Cell
  dir : Cell
  nextDir : Cell
  food : Cell
  stats : Stats
deriving DecidableEq, Repr

/-- `isSameCell(a, b)`: `a.x === b.x && a.y === b.y`. -/
def isSameCell (a b : Cell) : Bool :=
  a.x == b.x && a.y == b.y

/-- `stepMsForScore(s)`:
`level = min(10, 1 + floor(s / 5)); tick = max(80, 220 - (level - 1) * 15)`. -/
def stepMsForScore (s : Nat) : Nat :=
  let level := min 10 (1 + s / 5)
  max 80 (220 - (level - 1) * 15)

/-- `speedLevelForScore(s) = min(10, 1 + floor(s / 5))`. -/
def speedLevelForScore (s : Nat) : Nat :=
  min 10 (1 + s / 5)

/-- `setDirection(x, y)`: ignore an exact 180-degree reversal, otherwise
latch `(x, y)` as the pending direction. -/
def setDirection (g : Game) (x y : Int) : Game :=
  if x = -g.dir.x ∧ y = -g.dir.y then g
  else { g with nextDir := ⟨x, y⟩ }

/-- The rejection-sampling loop of `spawnFood`: `fuel` is the number of remaining tries,
`i` indexes the random stream. Each attempt draws a candidate cell; an
occupied candidate is rejected and the loop retries; after the tries are
exhausted the fallback `{x: 0, y: 0}` is used. -/
def spawnFoodAux (snake : List Cell) (rand : Nat → Cell) : Nat → Nat → Cell
  | 0, _ => ⟨0, 0⟩
  | fuel + 1, i =>
    if snake.any (fun s => isSameCell s (rand i)) then spawnFoodAux snake rand fuel (i + 1)
    else rand i

/-- `spawnFood()`: up to 5000 rejection-sampling attempts, then the
`{x: 0, y: 0}` fallback. Returns the new food cell. -/
def spawnFood (snake : List Cell) (rand : Nat → Cell) : Cell :=
  spawnFoodAux snake rand 5000 0

/-- `resetGame()`: score 0, clear game over, directions `(1,0)`, 3-cell
snake centred horizontally, respawn food. (The DOM work — hiding the
restart button, HUD refresh — is external.) -/
def resetGame (g : Game) (rand : Nat → Cell) : Game :=
  let startX : Int := GRID_COLS.tdiv 2 - 1
  let startY : Int := GRID_ROWS.tdiv 2
  let snake : List Cell := [⟨startX, startY⟩, ⟨startX - 1, startY⟩, ⟨startX - 2, startY⟩]
  { g with
    score := 0
    gameOver := false
    dir := ⟨1, 0⟩
    nextDir := ⟨1, 0⟩
    snake := snake
    food := spawnFood snake rand }

/-- `recordAttemptStart()`: `attemptsByDay[today] = (attemptsByDay[today] ?? 0) + 1`.
`today` is the local date key; `saveStats`/`updateHud` are external. -/
def recordAttemptStart (g : Game) (today : String) : Game :=
  let cur := (lookupDay g.stats.attemptsByDay today).getD 0
  { g with stats := { g.stats with attemptsByDay := setDay g.stats.attemptsByDay today (cur + 1) } }

/-- `maybeUpdateBest()`: raise `stats.bestScore` to `score` when exceeded. -/
def maybeUpdateBest (score : Nat) (st : Stats) : Stats :=
  if score > st.bestScore then { st with bestScore := score } else st

/-- `startNewGame()`: reset, count the attempt, then play with no overlay. -/
def startNewGame (g : Game) (rand : Nat → Cell) (today : String) : Game :=
  let g1 := recordAttemptStart (resetGame g rand) today
  { g1 with gameState := GState.playing, uiScreen := UScreen.none }

/-- `pauseGame()`: only from playing; menu shown with Continue highlighted. -/
def pauseGame (g : Game) : Game :=
  if g.gameState ≠ GState.playing then g
  else { g with gameState := GState.paused, uiScreen := UScreen.menu, menuIndex := 1 }

/-- `resumeGame()`: only from paused. -/
def resumeGame (g : Game) : Game :=
  if g.gameState ≠ GState.paused then g
  else { g with gameState := GState.playing, uiScreen := UScreen.none }

/-- `togglePause()`. -/
def togglePause (g : Game) : Game :=
  if g.gameState = GState.playing then pauseGame g
  else if g.gameState = GState.paused then resumeGame g
  else g

/-- `selectMenuItem(index)`: 0 Instructions, 1 Continue (paused only),
2 New game. -/
def selectMenuItem (g : Game) (index : Nat) (rand : Nat → Cell) (today : String) : Game :=
  if index = 0 then { g with uiScreen := UScreen.instructions }
  else if index = 1 then
    (if g.gameState = GState.paused then resumeGame g else g)
  else if index = 2 then startNewGame g rand today
  else g

/-- The wrapped new head of `tick()`:
`next = head + dir`, then `next.x = (next.x + GRID_COLS) % GRID_COLS`
(and likewise for `y`); JS `%` is truncation remainder (`Int.tmod`). -/
def newHead (head d : Cell) : Cell :=
  ⟨(head.x + d.x + GRID_COLS).tmod GRID_COLS, (head.y + d.y + GRID_ROWS).tmod GRID_ROWS⟩

/-- The candidate body of `tick()`: `[next, ...snake]`, popping the tail
unless the head landed on food. `head` is the current snake head. -/
def candidateBody (g : Game) (head : Cell) : List Cell :=
  let next := newHead head g.nextDir
  let ate := isSameCell next g.food
  if ate then next :: g.snake else (next :: g.snake).dropLast

/-- The self-collision scan of `tick()`: some candidate-body cell at
index ≥ 1 equals the new head. -/
def selfCollision (g : Game) (head : Cell) : Bool :=
  ((candidateBody g head).drop 1).any (fun c => isSameCell c (newHead head g.nextDir))

/-- `tick()`: one simulation step. No-op unless playing and not game
over. Latches the pending direction, moves and wraps the head, forms the
candidate body, detects self-collision (→ game over), else commits the
body and on eating increments the score, respawns food and updates the
best-score stat. -/
def tick (g : Game) (rand : Nat → Cell) : Game :=
  if g.gameOver ∨ g.gameState ≠ GState.playing then g
  else
    match g.snake with
    | [] => g
    | head :: _ =>
      let next := newHead head g.nextDir
      let ate := isSameCell next g.food
      let nextSnake := candidateBody g head
      if selfCollision g head then
        { g with dir := g.nextDir, gameOver := true, gameState := GState.over }
      else
        let g' := { g with dir := g.nextDir, snake := nextSnake }
        if ate then
          { g' with
            score := g'.score + 1
            food := spawnFood nextSnake rand
            stats := maybeUpdateBest (g'.score + 1) g'.stats }
        else g'

/-- A cell inside the grid: the Cell data-model invariant. -/
def validCell (c : Cell) : Prop :=
  0 ≤ c.x ∧ c.x < GRID_COLS ∧ 0 ≤ c.y ∧ c.y < GRID_ROWS

instance (c : Cell) : Decidable (validCell c) := by
  unfold validCell; infer_instance

/-- A unit direction vector. -/
def isDir (d : Cell) : Prop :=
  d = ⟨1, 0⟩ ∨ d = ⟨-1, 0⟩ ∨ d = ⟨0, 1⟩ ∨ d = ⟨0, -1⟩

instance (d : Cell) : Decidable (isDir d) := by
  unfold isDir; infer_instance

/-- A fixed random stream that always proposes the origin cell. -/
def constRand : Nat → Cell := fun _ => ⟨0, 0⟩

/-- A mid-game position: 3-cell snake moving right, food directly ahead. -/
def gPlay : Game :=
  { score := 0
    gameOver := false
    gameState := GState.playing
    uiScreen := UScreen.none
    menuIndex := 2
    snake := [⟨5, 5⟩, ⟨4, 5⟩, ⟨3, 5⟩]
    dir := ⟨1, 0⟩
    nextDir := ⟨1, 0⟩
    food := ⟨6, 5⟩
    stats := ⟨0, []⟩ }

/-- A position one step from self-collision: the head at (5,5) moves right
into (6,5), which the candidate body still occupies at index 2. -/
def gCrash : Game :=
  { gPlay with snake := [⟨5, 5⟩, ⟨6, 5⟩, ⟨6, 6⟩, ⟨5, 6⟩, ⟨4, 5⟩], food := ⟨0, 0⟩ }

/-- A game-over position. -/
def gOver : Game :=
  { gPlay with gameOver := true, gameState := GState.over }

/-- A paused position. -/
def gPaused : Game :=
  { gPlay with gameState := GState.paused, uiScreen := UScreen.menu, menuIndex := 1 }

/-! ## Helper lemmas -/

theorem isSameCell_iff (a b : Cell) : isSameCell a b = true ↔ a = b := by
  cases a
  cases b
  simp [isSameCell, Cell.mk.injEq]

theorem tmod_bounds (v m : Int) (hm : 0 < m) (hv : 0 ≤ v) :
    0 ≤ v.tmod m ∧ v.tmod m < m :=
  ⟨Int.tmod_nonneg m hv, Int.tmod_lt_of_pos v hm⟩

theorem lookupDay_setDay_self (m : List (String × Nat)) (k : String) (v : Nat) :
    lookupDay (setDay m k v) k = Option.some v := by
  induction m with
  | nil => simp [setDay, lookupDay]
  | cons p rest ih =>
    obtain ⟨k', v'⟩ := p
    by_cases hk : k' = k
    · simp [setDay, hk, lookupDay]
    · simp [setDay, hk, lookupDay, ih]

theorem lookupDay_setDay_other (m : List (String × Nat)) (k : String) (v : Nat)
    (k'' : String) (hne : k'' ≠ k) :
    lookupDay (setDay m k v) k'' = lookupDay m k'' := by
  have hne' : ¬k = k'' := fun h => hne h.symm
  induction m with
  | nil => simp [setDay, lookupDay, hne']
  | cons p rest ih =>
    obtain ⟨k', v'⟩ := p
    by_cases hk : k' = k
    · subst hk
      simp [setDay, lookupDay, hne']
    · simp [setDay, hk, lookupDay, ih]

theorem tick_frozen (g : Game) (rand : Nat → Cell) (h : g.gameOver = true) :
    tick g rand = g := by
  simp [tick, h]

theorem tick_collision_eq (g : Game) (rand : Nat → Cell) (head : Cell) (t : List Cell)
    (hs : g.snake = head :: t) (hov : g.gameOver = false) (hpl : g.gameState = GState.playing)
    (hc : selfCollision g head = true) :
    tick g rand = { g with dir := g.nextDir, gameOver := true, gameState := GState.over } := by
  simp [tick, hov, hpl, hs, hc]

theorem tick_no_collision_snake (g : Game) (rand : Nat → Cell) (head : Cell) (t : List Cell)
    (hs : g.snake = head :: t) (hov : g.gameOver = false) (hpl : g.gameState = GState.playing)
    (hc : selfCollision g head = false) :
    (tick g rand).snake = candidateBody g head := by
  by_cases hate : isSameCell (newHead head g.nextDir) g.food = true
  · simp [tick, hov, hpl, hs, hc, hate]
  · rw [Bool.not_eq_true] at hate
    simp [tick, hov, hpl, hs, hc, hate]

theorem spawnFoodAux_stuck (snake : List Cell) (rand : Nat → Cell)
    (hall : ∀ j, snake.any (fun s => isSameCell s (rand j)) = true) :
    ∀ fuel i, spawnFoodAux snake rand fuel i = ⟨0, 0⟩ := by
  intro fuel
  induction fuel with
  | zero => intro i; rfl
  | succ n ih => intro i; simp [spawnFoodAux, hall i, ih]

theorem spawnFoodAux_free (snake : List Cell) (rand : Nat → Cell) :
    ∀ fuel i,
      (∃ j, j < fuel ∧ snake.any (fun s => isSameCell s (rand (i + j))) = false) →
      spawnFoodAux snake rand fuel i ∉ snake := by
  intro fuel
  induction fuel with
  | zero =>
    intro i hex
    obtain ⟨j, hj, _⟩ := hex
    omega
  | succ n ih =>
    intro i hex
    obtain ⟨j, hjlt, hjfree⟩ := hex
    by_cases hocc : snake.any (fun s => isSameCell s (rand i)) = true
    · have hj0 : j ≠ 0 := by
        intro h0
        subst h0
        rw [Nat.add_zero] at hjfree
        rw [hocc] at hjfree
        exact Bool.true_eq_false.mp hjfree
      obtain ⟨j', rfl⟩ := Nat.exists_eq_succ_of_ne_zero hj0
      simp only [spawnFoodAux, hocc, if_true]
      apply ih (i + 1)
      refine ⟨j', by omega, ?_⟩
      rw [show i + 1 + j' = i + (j' + 1) by omega]
      exact hjfree
    · rw [Bool.not_eq_true] at hocc
      simp only [spawnFoodAux, hocc, Bool.false_eq_true, if_false]
      intro hmem
      have hany : snake.any (fun s => isSameCell s (rand i)) = true :=
        List.any_eq_true.mpr ⟨rand i, hmem, (isSameCell_iff _ _).mpr rfl⟩
      rw [hocc] at hany
      exact Bool.false_eq_true.mp hany

theorem newHead_valid (h d : Cell) (hv : validCell h) (hd : isDir d) :
    validCell (newHead h d) := by
  obtain ⟨hx0, hx1, hy0, hy1⟩ := hv
  simp only [GRID_COLS, GRID_ROWS] at hx1 hy1
  rcases hd with hd | hd | hd | hd <;> subst hd <;>
    simp only [validCell, newHead, GRID_COLS, GRID_ROWS] <;>
    exact ⟨Int.tmod_nonneg _ (by omega), Int.tmod_lt_of_pos _ (by decide),
           Int.tmod_nonneg _ (by omega), Int.tmod_lt_of_pos _ (by decide)⟩

/-! ## Claim theorems -/

/-- C1: for every tick that completes (playing, not game over, no
self-collision), the snake length is unchanged unless the new head equals
the food cell, in which case it grows by exactly 1. -/
theorem c1_snake_length_invariant (g : Game) (rand : Nat → Cell) (head : Cell) (t : List Cell)
    (hs : g.snake = head :: t) (hov : g.gameOver = false) (hpl : g.gameState = GState.playing)
    (hc : selfCollision g head = false) :
    (tick g rand).snake.length =
      if newHead head g.nextDir = g.food then g.snake.length + 1 else g.snake.length := by
  rw [tick_no_collision_snake g rand head t hs hov hpl hc]
  by_cases hf : newHead head g.nextDir = g.food
  · have hb : isSameCell (newHead head g.nextDir) g.food = true := (isSameCell_iff _ _).mpr hf
    rw [if_pos hf]
    simp [candidateBody, hb]
  · have hb : isSameCell (newHead head g.nextDir) g.food = false := by
      rw [← Bool.not_eq_true]
      exact fun hh => hf ((isSameCell_iff _ _).mp hh)
    rw [if_neg hf]
    simp [candidateBody, hb, hs]

/-- C1 witness: a 3-cell snake eating the food directly ahead. -/
theorem c1_witness :
    (tick gPlay constRand).snake.length =
      if newHead ⟨5, 5⟩ gPlay.nextDir = gPlay.food then gPlay.snake.length + 1
      else gPlay.snake.length :=
  c1_snake_length_invariant gPlay constRand ⟨5, 5⟩ [⟨4, 5⟩, ⟨3, 5⟩] rfl rfl rfl (by decide)

/-- C2: for a head inside the grid and a unit direction, the wrapped new
head is inside the grid; (19,5) moving (1,0) wraps to (0,5); a negative
one-step move at x = 0 or y = 0 wraps to the opposite edge. -/
theorem c2_new_head_in_grid (h d : Cell) (hv : validCell h) (hd : isDir d) :
    validCell (newHead h d)
    ∧ newHead ⟨19, 5⟩ ⟨1, 0⟩ = ⟨0, 5⟩
    ∧ (h.x = 0 → d = ⟨-1, 0⟩ → (newHead h d).x = GRID_COLS - 1)
    ∧ (h.y = 0 → d = ⟨0, -1⟩ → (newHead h d).y = GRID_ROWS - 1) := by
  refine ⟨newHead_valid h d hv hd, by decide, ?_, ?_⟩
  · intro hx hd'
    subst hd'
    simp only [newHead, GRID_COLS, hx]
    decide
  · intro hy hd'
    subst hd'
    simp only [newHead, GRID_ROWS, hy]
    decide

/-- C2 witness: the head (19,5) moving right on the 20-wide grid. -/
theorem c2_witness :
    validCell (newHead ⟨19, 5⟩ ⟨1, 0⟩)
    ∧ newHead ⟨19, 5⟩ ⟨1, 0⟩ = ⟨0, 5⟩
    ∧ ((⟨19, 5⟩ : Cell).x = 0 → (⟨1, 0⟩ : Cell) = ⟨-1, 0⟩ →
        (newHead ⟨19, 5⟩ ⟨1, 0⟩).x = GRID_COLS - 1)
    ∧ ((⟨19, 5⟩ : Cell).y = 0 → (⟨1, 0⟩ : Cell) = ⟨0, -1⟩ →
        (newHead ⟨19, 5⟩ ⟨1, 0⟩).y = GRID_ROWS - 1) :=
  c2_new_head_in_grid ⟨19, 5⟩ ⟨1, 0⟩ (by decide) (by decide)

/-- C3: a tick that detects self-collision ends the game (GameState over,
game-over flag set), and any tick taken in a game-over state leaves the
snake and the score unchanged (until a new game resets the flag). -/
theorem c3_collision_game_over (g : Game) (rand : Nat → Cell) (head : Cell) (t : List Cell)
    (g2 : Game) (rand2 : Nat → Cell)
    (hs : g.snake = head :: t) (hov : g.gameOver = false) (hpl : g.gameState = GState.playing)
    (hc : selfCollision g head = true) (h2 : g2.gameOver = true) :
    ((tick g rand).gameState = GState.over ∧ (tick g rand).gameOver = true)
    ∧ (tick g2 rand2).snake = g2.snake ∧ (tick g2 rand2).score = g2.score := by
  rw [tick_collision_eq g rand head t hs hov hpl hc, tick_frozen g2 rand2 h2]
  exact ⟨⟨rfl, rfl⟩, rfl, rfl⟩

/-- C3 witness: a head moving right into its own body, then a frozen
game-over state. -/
theorem c3_witness :
    ((tick gCrash constRand).gameState = GState.over ∧ (tick gCrash constRand).gameOver = true)
    ∧ (tick gOver constRand).snake = gOver.snake ∧ (tick gOver constRand).score = gOver.score :=
  c3_collision_game_over gCrash constRand ⟨5, 5⟩ [⟨6, 5⟩, ⟨6, 6⟩, ⟨5, 6⟩, ⟨4, 5⟩]
    gOver constRand rfl rfl rfl (by decide) rfl

/-- C4 counterexample: the snake occupies only (0,0) and (1,0) on the 320
cell grid, so free cells exist, yet a random stream that always proposes
(0,0) makes every one of the 5000 rejection-sampling attempts fail, and
the (0,0) fallback lands on the snake. -/
theorem c4_counterexample :
    ([⟨0, 0⟩, ⟨1, 0⟩] : List Cell).length < 20 * 16
    ∧ spawnFood [⟨0, 0⟩, ⟨1, 0⟩] constRand ∈ ([⟨0, 0⟩, ⟨1, 0⟩] : List Cell) := by
  refine ⟨by decide, ?_⟩
  rw [spawnFood, spawnFoodAux_stuck [⟨0, 0⟩, ⟨1, 0⟩] constRand (fun j => rfl) 5000 0]
  decide

/-- C4 (amended): whenever at least one of the 5000 rejection-sampling
draws proposes a cell the snake does not occupy, the food produced by
spawnFood does not coincide with any snake cell. (Unamended, the claim
fails: if all 5000 draws hit the snake, the fallback (0,0) may be an
occupied cell even though free cells exist.) -/
theorem c4_food_not_on_snake (snake : List Cell) (rand : Nat → Cell)
    (hfree : ∃ j, j < 5000 ∧ snake.any (fun s => isSameCell s (rand j)) = false) :
    spawnFood snake rand ∉ snake := by
  apply spawnFoodAux_free snake rand 5000 0
  obtain ⟨j, hj, hfree⟩ := hfree
  exact ⟨j, hj, by rw [Nat.zero_add]; exact hfree⟩

/-- C4 witness: a single-cell snake at the origin and a stream proposing
the free cell (1,1). -/
theorem c4_witness : spawnFood [⟨0, 0⟩] (fun _ => ⟨1, 1⟩) ∉ ([⟨0, 0⟩] : List Cell) :=
  c4_food_not_on_snake [⟨0, 0⟩] (fun _ => ⟨1, 1⟩) ⟨0, by decide, by decide⟩

/-- C5: setDirection with the exact opposite of the current direction is a
complete no-op; otherwise it only latches the pending direction. -/
theorem c5_reversal_ignored (g : Game) (x y : Int) (hd : isDir ⟨x, y⟩) :
    ((x = -g.dir.x ∧ y = -g.dir.y) → setDirection g x y = g)
    ∧ (¬(x = -g.dir.x ∧ y = -g.dir.y) →
        setDirection g x y = { g with nextDir := ⟨x, y⟩ }) := by
  constructor
  · intro hopp
    unfold setDirection
    rw [if_pos hopp]
  · intro hopp
    unfold setDirection
    rw [if_neg hopp]

/-- C5 witness: turning down while moving right. -/
theorem c5_witness :
    ((0 : Int) = -gPlay.dir.x ∧ (1 : Int) = -gPlay.dir.y → setDirection gPlay 0 1 = gPlay)
    ∧ (¬((0 : Int) = -gPlay.dir.x ∧ (1 : Int) = -gPlay.dir.y) →
        setDirection gPlay 0 1 = { gPlay with nextDir := ⟨0, 1⟩ }) :=
  c5_reversal_ignored gPlay 0 1 (by decide)

/-- C6: the speed level is monotone in the score and capped at 10; the
tick interval is antitone in the score and floored at 80 ms. -/
theorem c6_speed_monotone (s t : Nat) (hst : s ≤ t) :
    speedLevelForScore s ≤ speedLevelForScore t
    ∧ speedLevelForScore s ≤ 10
    ∧ stepMsForScore t ≤ stepMsForScore s
    ∧ 80 ≤ stepMsForScore s := by
  simp only [speedLevelForScore, stepMsForScore]
  omega

/-- C6 witness: scores 0 and 7. -/
theorem c6_witness :
    speedLevelForScore 0 ≤ speedLevelForScore 7
    ∧ speedLevelForScore 0 ≤ 10
    ∧ stepMsForScore 7 ≤ stepMsForScore 0
    ∧ 80 ≤ stepMsForScore 0 :=
  c6_speed_monotone 0 7 (by decide)

/-- C7: resetGame on the 20 by 16 grid yields the 3-cell centred snake
[(9,8),(8,8),(7,8)], directions (1,0), score 0 and a cleared game-over
flag, whatever the prior state and the random stream. -/
theorem c7_reset_game (g : Game) (rand : Nat → Cell) :
    (resetGame g rand).snake = [⟨9, 8⟩, ⟨8, 8⟩, ⟨7, 8⟩]
    ∧ (resetGame g rand).dir = ⟨1, 0⟩
    ∧ (resetGame g rand).nextDir = ⟨1, 0⟩
    ∧ (resetGame g rand).score = 0
    ∧ (resetGame g rand).gameOver = false :=
  ⟨rfl, rfl, rfl, rfl, rfl⟩

/-- C7 witness: reset from a mid-game position. -/
theorem c7_witness :
    (resetGame gPlay constRand).snake = [⟨9, 8⟩, ⟨8, 8⟩, ⟨7, 8⟩]
    ∧ (resetGame gPlay constRand).dir = ⟨1, 0⟩
    ∧ (resetGame gPlay constRand).nextDir = ⟨1, 0⟩
    ∧ (resetGame gPlay constRand).score = 0
    ∧ (resetGame gPlay constRand).gameOver = false :=
  c7_reset_game gPlay constRand

/-- C8: startNewGame increments the attempt count of the current date key
by exactly 1 (a missing entry counts as 0) and leaves every other date
key untouched. -/
theorem c8_attempts_today (g : Game) (rand : Nat → Cell) (today k : String)
    (hk : k ≠ today) :
    lookupDay (startNewGame g rand today).stats.attemptsByDay today
      = Option.some ((lookupDay g.stats.attemptsByDay today).getD 0 + 1)
    ∧ lookupDay (startNewGame g rand today).stats.attemptsByDay k
      = lookupDay g.stats.attemptsByDay k := by
  have hstats : (startNewGame g rand today).stats.attemptsByDay
      = setDay g.stats.attemptsByDay today
          ((lookupDay g.stats.attemptsByDay today).getD 0 + 1) := by
    simp [startNewGame, recordAttemptStart, resetGame]
  rw [hstats]
  exact ⟨lookupDay_setDay_self _ _ _, lookupDay_setDay_other _ _ _ _ hk⟩

/-- C8 witness: stats with an entry for another day only. -/
theorem c8_witness :
    lookupDay (startNewGame gPlay constRand "2026-10-11").stats.attemptsByDay "2026-10-11"
      = Option.some ((lookupDay gPlay.stats.attemptsByDay "2026-10-11").getD 0 + 1)
    ∧ lookupDay (startNewGame gPlay constRand "2026-10-11").stats.attemptsByDay "2026-10-10"
      = lookupDay gPlay.stats.attemptsByDay "2026-10-10" :=
  c8_attempts_today gPlay constRand "2026-10-11" "2026-10-10" (by decide)

/-- C9: selectMenuItem 1 resumes a paused game (playing, no overlay) and
changes neither GameState nor UiScreen otherwise. -/
theorem c9_continue_menu_item (g : Game) (rand : Nat → Cell) (today : String) :
    (g.gameState = GState.paused →
      (selectMenuItem g 1 rand today).gameState = GState.playing
      ∧ (selectMenuItem g 1 rand today).uiScreen = UScreen.none)
    ∧ (g.gameState ≠ GState.paused →
      (selectMenuItem g 1 rand today).gameState = g.gameState
      ∧ (selectMenuItem g 1 rand today).uiScreen = g.uiScreen) := by
  constructor
  · intro hp
    simp [selectMenuItem, hp, resumeGame]
  · intro hp
    simp [selectMenuItem, hp]

/-- C9 witness: a paused game. -/
theorem c9_witness :
    (gPaused.gameState = GState.paused →
      (selectMenuItem gPaused 1 constRand "2026-10-11").gameState = GState.playing
      ∧ (selectMenuItem gPaused 1 constRand "2026-10-11").uiScreen = UScreen.none)
    ∧ (gPaused.gameState ≠ GState.paused →
      (selectMenuItem gPaused 1 constRand "2026-10-11").gameState = gPaused.gameState
      ∧ (selectMenuItem gPaused 1 constRand "2026-10-11").uiScreen = gPaused.uiScreen) :=
  c9_continue_menu_item gPaused constRand "2026-10-11"

/-- C10: a tick that detects self-collision leaves snake, score, food,
pending direction, UI screen, menu index and stats exactly as they were;
it only sets the game-over flag, moves GameState to over, and latches the
pending direction as current. -/
theorem c10_collision_frame (g : Game) (rand : Nat → Cell) (head : Cell) (t : List Cell)
    (hs : g.snake = head :: t) (hov : g.gameOver = false) (hpl : g.gameState = GState.playing)
    (hc : selfCollision g head = true) :
    (tick g rand).snake = g.snake ∧ (tick g rand).score = g.score
    ∧ (tick g rand).food = g.food ∧ (tick g rand).nextDir = g.nextDir
    ∧ (tick g rand).uiScreen = g.uiScreen ∧ (tick g rand).menuIndex = g.menuIndex
    ∧ (tick g rand).stats = g.stats
    ∧ (tick g rand).gameOver = true ∧ (tick g rand).gameState = GState.over
    ∧ (tick g rand).dir = g.nextDir := by
  rw [tick_collision_eq g rand head t hs hov hpl hc]
  exact ⟨rfl, rfl, rfl, rfl, rfl, rfl, rfl, rfl, rfl, rfl⟩

/-- C10 witness: the colliding position gCrash. -/
theorem c10_witness :
    (tick gCrash constRand).snake = gCrash.snake ∧ (tick gCrash constRand).score = gCrash.score
    ∧ (tick gCrash constRand).food = gCrash.food
    ∧ (tick gCrash constRand).nextDir = gCrash.nextDir
    ∧ (tick gCrash constRand).uiScreen = gCrash.uiScreen
    ∧ (tick gCrash constRand).menuIndex = gCrash.menuIndex
    ∧ (tick gCrash constRand).stats = gCrash.stats
    ∧ (tick gCrash constRand).gameOver = true
    ∧ (tick gCrash constRand).gameState = GState.over
    ∧ (tick gCrash constRand).dir = gCrash.nextDir :=
  c10_collision_frame gCrash constRand ⟨5, 5⟩ [⟨6, 5⟩, ⟨6, 6⟩, ⟨5, 6⟩, ⟨4, 5⟩]
    rfl rfl rfl (by decide)

end Snake
